import Mathlib

/-!
Verification development for the steadycache repository
(src/steadycache/cache.py): a shallow embedding of the caching
decorator and proofs of the specified properties.

Conventions of the embedding:
* Python floats (time.time(), expires, stale) are modelled as rationals.
* JSON values decoded by json.loads are the inductive type JVal; a Python
  dict is an ordered association list, matching CPython (3.7+) dicts,
  whose iteration order is insertion order.
* A call of the wrapped function is a pure function of its inputs
  (configuration, the outcome of cache_store.get, the current time, the
  outcome of lock.acquire(), and the behaviour of the underlying function
  f on this call), returning a Trace that records the returned value or
  raised exception together with every externally visible effect
  (f invoked, entry written, lock attempted/released, thread spawned).
-/

/-- A JSON value as produced by json.loads.  Objects are ordered
association lists, reflecting CPython dict insertion order. -/
inductive JVal where
  | jnum (q : ℚ)
  | jstr (s : String)
  | jbool (b : Bool)
  | jnull
  | jarr (xs : List JVal)
  | jobj (fields : List (String × JVal))

/-- Python truthiness of a decoded JSON value (`if cached_result`). -/
def JVal.truthy : JVal → Bool
  | .jnum q => q != 0
  | .jstr s => s != ""
  | .jbool b => b
  | .jnull => false
  | .jarr xs => !xs.isEmpty
  | .jobj fs => !fs.isEmpty

/-- Python dict lookup d.get(k) on a decoded object (first binding wins;
json.loads never yields duplicate keys). -/
def jobjGet (fs : List (String × JVal)) (k : String) : Option JVal :=
  (fs.find? (fun p => p.1 == k)).map (fun p => p.2)

/-- Exceptions the wrapped call can raise, as seen by the caller. -/
inductive PyError where
  | storeGet   -- exception raised by cache_store.get itself
  | attrError  -- AttributeError: .get on a truthy non-dict value
  | keyError   -- KeyError: ['timestamp'] / ['result'] missing on a dict
  | typeError  -- TypeError: subscript of non-dict, or non-numeric timestamp
  | fromF      -- exception raised by the underlying function f
deriving DecidableEq

/-- What cache_store.get returned for the key, abstracted through
json.loads: `noEntry` is a None reply (json.loads(None) raises TypeError),
`garbage` is a byte string json.loads cannot parse, and `val v` is a byte
string parsing to the JSON value v. -/
inductive CellContent where
  | noEntry
  | garbage
  | val (v : JVal)

/-- Lines 78-81: `try: cached_result = json.loads(cached_result)
except: cached_result = {}` — any decode failure (including the TypeError
from a None reply) leaves the empty dict. -/
def decodeStep : CellContent → JVal
  | .noEntry => .jobj []
  | .garbage => .jobj []
  | .val v => v

/-- Line 84: `age = now - cached_result.get('timestamp', 0) if
cached_result else now`.  A truthy non-dict raises AttributeError at
`.get`; a non-numeric timestamp raises TypeError at the subtraction. -/
def ageStep (cr : JVal) (now : ℚ) : Except PyError ℚ :=
  if cr.truthy then
    match cr with
    | .jobj fs =>
      match jobjGet fs "timestamp" with
      | some (.jnum ts) => .ok (now - ts)
      | some _ => .error .typeError
      | none => .ok (now - 0)
    | _ => .error .attrError
  else .ok now

/-- Python item access `cached_result[k]` (KeyError when the key is
absent, TypeError when the value is not subscriptable by a string). -/
def itemGet : JVal → String → Except PyError JVal
  | .jobj fs, k =>
    match jobjGet fs k with
    | some v => .ok v
    | none => .error .keyError
  | _, _ => .error .typeError

/-- The configuration captured by the decorator closure: expires (line
44 default 5), stale after the line 56-57 defaulting, bg_caching. -/
structure Config where
  expires : ℚ
  stale : ℚ
  bg_caching : Bool

/-- Line 92: the bg-refresh condition `bg_caching and cached_result and
now - cached_result['timestamp'] < stale`, with Python short-circuit
evaluation; the item access can raise when the first two conjuncts
hold. -/
def bgCond (cfg : Config) (cr : JVal) (now : ℚ) : Except PyError Bool :=
  if cfg.bg_caching = true ∧ cr.truthy = true then
    match itemGet cr "timestamp" with
    | .ok (.jnum ts) => .ok (decide (now - ts < cfg.stale))
    | .ok _ => .error .typeError
    | .error e => .error e
  else .ok false

/-- The arguments of the cache_store.lock call on line 90. -/
structure LockArgs where
  name : String
  timeout : ℚ
  blocking_timeout : ℚ
  thread_local : Bool
deriving DecidableEq

/-- The entry persisted on line 70:
`json.dumps({'timestamp': time.time(), 'result': result})`, with tW the
value of time.time() at the write. -/
def entryJ (tW : ℚ) (v : JVal) : JVal :=
  .jobj [("timestamp", .jnum tW), ("result", v)]

/-- Outcome of update_cache (lines 67-73) run to completion in some
thread: the entry written (if any), whether the lock was released, and
the value returned or exception propagated. -/
structure UpdateResult where
  written : Option JVal
  lockReleased : Bool
  outcome : Except PyError JVal

/-- Lines 67-73: `try: result = f(...); cache_store.set(mangle(...),
json.dumps({'timestamp': time.time(), 'result': result})); return result
finally: lock.release()`.  The set targets the same mangled key as the
call (same f, args, kwargs).  fRes is the behaviour of f on this call. -/
def update_cache (fRes : Except Unit JVal) (tW : ℚ) : UpdateResult :=
  match fRes with
  | .ok v => { written := some (entryJ tW v), lockReleased := true, outcome := .ok v }
  | .error _ => { written := none, lockReleased := true, outcome := .error .fromF }

/-- Everything externally visible about one call of the wrapped
function: whether f was invoked in the calling thread, whether a
background refresh thread was spawned (f runs there), the entry this
thread wrote under the call's key, the lock call attempted (if any),
whether this thread released the lock, and the call's outcome. -/
structure Trace where
  fCalled : Bool
  bgSpawned : Bool
  written : Option JVal
  lockCall : Option LockArgs
  lockReleased : Bool
  outcome : Except PyError JVal

/-- Exceptions of f propagate unchanged on the direct-call path
(line 107: `return f(*args, **kwargs)`). -/
def liftF : Except Unit JVal → Except PyError JVal
  | .ok v => .ok v
  | .error _ => .error .fromF

/-- Lines 76-109, the body of `wrapped`, as a function of: the
configuration, the registered name fname, the mangled key of this call,
the result of cache_store.get on that key (Except: get itself may
raise), the current time now (line 83), the result of lock.acquire()
(line 91), the behaviour fRes of f applied to this call's arguments, and
the time tW at which a synchronous update_cache would write. -/
def wrappedRun (cfg : Config) (fname : String) (getRes : Except Unit CellContent)
    (now : ℚ) (lockAcquired : Bool) (fRes : Except Unit JVal) (tW : ℚ) : Trace :=
  match getRes with
  | .error _ =>
    -- line 77 is outside the try of lines 78-81: a get exception propagates
    { fCalled := false, bgSpawned := false, written := none,
      lockCall := none, lockReleased := false, outcome := .error .storeGet }
  | .ok cell =>
    let cr := decodeStep cell
    match ageStep cr now with
    | .error e =>
      { fCalled := false, bgSpawned := false, written := none,
        lockCall := none, lockReleased := false, outcome := .error e }
    | .ok age =>
      if cr.truthy = false ∨ age > cfg.expires then
        -- line 90: lock name, timeout, blocking_timeout, thread_local
        let lk : LockArgs :=
          { name := "__lock_" ++ fname, timeout := cfg.expires,
            blocking_timeout := 1/10, thread_local := false }
        if lockAcquired then
          match bgCond cfg cr now with
          | .error e =>
            -- the condition on line 92 raised before the try on line 95
            { fCalled := false, bgSpawned := false, written := none,
              lockCall := some lk, lockReleased := false, outcome := .error e }
          | .ok true =>
            -- lines 95-97: spawn the refresh thread, fall through to line 109
            { fCalled := false, bgSpawned := true, written := none,
              lockCall := some lk, lockReleased := false,
              outcome := itemGet cr "result" }
          | .ok false =>
            -- line 103: return update_cache(f, lock, *args, **kwargs)
            let ur := update_cache fRes tW
            { fCalled := true, bgSpawned := false, written := ur.written,
              lockCall := some lk, lockReleased := ur.lockReleased,
              outcome := ur.outcome }
        else
          if cfg.bg_caching = false ∨ cr.truthy = false then
            -- lines 106-107: bypass, call f directly, write nothing
            { fCalled := true, bgSpawned := false, written := none,
              lockCall := some lk, lockReleased := false, outcome := liftF fRes }
          else
            -- contended with bg_caching and an entry: fall through to line 109
            { fCalled := false, bgSpawned := false, written := none,
              lockCall := some lk, lockReleased := false,
              outcome := itemGet cr "result" }
      else
        -- fresh: fall through to line 109, `return cached_result['result']`
        { fCalled := false, bgSpawned := false, written := none,
          lockCall := none, lockReleased := false, outcome := itemGet cr "result" }

/-- Inputs of one call in a sequence of calls on the same key. -/
structure CallIn where
  now : ℚ
  lockAcq : Bool
  fRes : Except Unit JVal
  tW : ℚ

/-- Runs a sequence of calls of the wrapped function on one key against
a store modelled as a map from keys to cell contents; each call reads
the current cell for the key and its synchronous write (if any) is
installed before the next call. -/
def runCalls (cfg : Config) (fname key : String) :
    (String → CellContent) → List CallIn → List Trace × (String → CellContent)
  | store, [] => ([], store)
  | store, c :: rest =>
    let tr := wrappedRun cfg fname (.ok (store key)) c.now c.lockAcq c.fRes c.tW
    let store2 : String → CellContent :=
      match tr.written with
      | none => store
      | some v => fun x => if x = key then .val v else store x
    let rec2 := runCalls cfg fname key store2 rest
    (tr :: rec2.1, rec2.2)

/-!  Key derivation (mangle, lines 19-26) and its ingredients:
inspect.getcallargs and json.dumps, modelled for functions with
positional-or-keyword parameters and optional trailing defaults (the
only signature shape the repository exercises). -/

/-- A Python function signature: the parameter names in declaration
order, and default values for the last `defaults.length` of them. -/
structure PySig where
  params : List String
  defaults : List JVal

/-- The keyword-binding loop of inspect.getcallargs: each supplied
keyword is appended to the binding list in the order the caller supplied
it; an unknown keyword or a parameter already bound (positionally or by
an earlier keyword) raises TypeError. -/
def bindKw (args : List String) (b : List (String × JVal)) :
    List (String × JVal) → Except Unit (List (String × JVal))
  | [] => .ok b
  | (k, v) :: rest =>
    if k ∈ args then
      if (b.find? (fun p => p.1 == k)).isSome then .error ()
      else bindKw args (b ++ [(k, v)]) rest
    else .error ()

/-- The defaults-filling loop of inspect.getcallargs: parameters that
carry defaults and are still unbound are appended in signature order. -/
def fillDefaults (b : List (String × JVal)) (ads : List (String × JVal)) :
    List (String × JVal) :=
  ads.foldl
    (fun acc ad =>
      if (acc.find? (fun p => p.1 == ad.1)).isSome then acc else acc ++ [ad]) b

/-- inspect.getcallargs(func, *positional, **named) for a signature
without varargs, varkw or keyword-only parameters: positional arguments
are bound first (signature order), then supplied keywords (caller
order), then remaining defaults (signature order) — this is the
insertion order of the resulting CPython dict.  Binding failures
(too many positionals, unknown or duplicate keyword, missing required
argument) raise TypeError, modelled as .error. -/
def getcallargs (sig : PySig) (pos : List JVal) (kw : List (String × JVal)) :
    Except Unit (List (String × JVal)) :=
  let args := sig.params
  let numArgs := args.length
  let numDefaults := sig.defaults.length
  let numPos := pos.length
  match bindKw args (List.zip args pos) kw with
  | .error e => .error e
  | .ok b1 =>
    if numPos > numArgs then .error ()
    else if numPos < numArgs then
      let req := args.take (numArgs - numDefaults)
      if req.all (fun a => ((b1.find? (fun p => p.1 == a)).isSome : Bool)) then
        .ok (fillDefaults b1 ((args.drop (numArgs - numDefaults)).zip sig.defaults))
      else .error ()
    else .ok b1

mutual

/-- json.dumps with the default separators (", " between items, ": "
after a key); dict items are emitted in dict order, i.e. in the order of
the association list.  Numbers are rendered exactly for integers, the
only numbers this development serializes; string escaping is not
modelled (the strings serialized here contain no escapes). -/
def jsonDumps : JVal → String
  | .jnum q => if q.den = 1 then toString q.num else toString q
  | .jstr s => "\"" ++ s ++ "\""
  | .jbool b => if b then "true" else "false"
  | .jnull => "null"
  | .jarr xs => "[" ++ jsonDumpsArr xs ++ "]"
  | .jobj fs => "\x7b" ++ jsonDumpsObj fs ++ "\x7d"

def jsonDumpsArr : List JVal → String
  | [] => ""
  | [x] => jsonDumps x
  | x :: y :: rest => jsonDumps x ++ ", " ++ jsonDumpsArr (y :: rest)

def jsonDumpsObj : List (String × JVal) → String
  | [] => ""
  | [kv] => "\"" ++ kv.1 ++ "\": " ++ jsonDumps kv.2
  | kv :: y :: rest =>
    "\"" ++ kv.1 ++ "\": " ++ jsonDumps kv.2 ++ ", " ++ jsonDumpsObj (y :: rest)

end

/-- Lines 19-26: `mangle` returns
`"@" + fname + "_" + json.dumps(getcallargs(f, *args, **kwargs))`.
The sorted serialization on line 24 is only printed, not returned.  A
binding failure in getcallargs propagates. -/
def mangle (fname : String) (sig : PySig) (pos : List JVal)
    (kw : List (String × JVal)) : Except Unit String :=
  match getcallargs sig pos kw with
  | .ok bs => .ok ("@" ++ fname ++ "_" ++ jsonDumps (.jobj bs))
  | .error e => .error e

/-- The canonical (order-insensitive) view of a binding list: sorted by
parameter name, as computed (and merely printed) on line 24. -/
def sortedBindings (bs : List (String × JVal)) : List (String × JVal) :=
  bs.mergeSort (fun a b => decide (a.1 ≤ b.1))

/-!  Registration (lines 17 and 59-65). -/

/-- Line 60: the derived name of a registration,
`prefix + "_" + f.__module__ + "_" + f.__name__`. -/
def fnameOf (pfx modName funcName : String) : String :=
  pfx ++ "_" ++ modName ++ "_" ++ funcName

/-- Lines 62-65 against the global `decorated` registry (line 17),
modelled as the list of names already registered: a second registration
of a name already present raises CacheNameClashException before the
wrapped function is even built; otherwise the name is recorded. -/
def decorate (registry : List String) (fname : String) :
    Except Unit (List String) :=
  if fname ∈ registry then .error () else .ok (fname :: registry)

/-!  The configurator (lines 44-57). -/

/-- A Python value passed for the `stale` parameter: None (the default)
or a number. -/
inductive PyNumOpt where
  | pynone
  | num (q : ℚ)

/-- Lines 56-57: `if not stale: stale = 2 * expires` — Python truthiness
makes None, 0 and 0.0 all fall to the default. -/
def resolveStale (expires : ℚ) : PyNumOpt → ℚ
  | .pynone => 2 * expires
  | .num q => if q = 0 then 2 * expires else q

/-- The signature of `def baw(a=1, b=1)` from tests/test_cache.py
(test_kwargs_caching), used to exhibit key derivation on concrete
calls. -/
def sigBaw : PySig := ⟨["a", "b"], [.jnum 1, .jnum 1]⟩

/-!  Theorems. -/

/-- A successful lookup in a decoded object means the object is a
nonempty dict, hence truthy. -/
theorem truthy_of_jobjGet {fs : List (String × JVal)} {k : String} {v : JVal}
    (h : jobjGet fs k = some v) : JVal.truthy (.jobj fs) = true := by
  cases fs with
  | nil => simp [jobjGet] at h
  | cons a l => simp [JVal.truthy]

/-- Claim C1: the derived cache key is required to be independent of the
order in which keyword arguments are supplied.  It is not: for
baw(a=1, b=1), the calls baw(a=1, b=2) and baw(b=2, a=1) bind to the
same effective parameter-to-value mapping (the sorted bindings agree)
yet mangle returns two different key strings, because line 26 serializes
the insertion-ordered getcallargs dict without sorting (the sorted
serialization computed on line 24 is only printed).  This contradicts
the repository's own test_kwargs_caching, which asserts that these two
calls hit the same cache entry. -/
theorem c1_key_depends_on_kwarg_order :
    mangle "t_m_baw" sigBaw [] [("a", .jnum 1), ("b", .jnum 2)]
        = .ok "@t_m_baw_\x7b\"a\": 1, \"b\": 2\x7d"
    ∧ mangle "t_m_baw" sigBaw [] [("b", .jnum 2), ("a", .jnum 1)]
        = .ok "@t_m_baw_\x7b\"b\": 2, \"a\": 1\x7d"
    ∧ ("@t_m_baw_\x7b\"a\": 1, \"b\": 2\x7d" : String)
        ≠ "@t_m_baw_\x7b\"b\": 2, \"a\": 1\x7d"
    ∧ getcallargs sigBaw [] [("a", .jnum 1), ("b", .jnum 2)]
        = .ok [("a", .jnum 1), ("b", .jnum 2)]
    ∧ getcallargs sigBaw [] [("b", .jnum 2), ("a", .jnum 1)]
        = .ok [("b", .jnum 2), ("a", .jnum 1)]
    ∧ sortedBindings [("a", .jnum 1), ("b", .jnum 2)]
        = sortedBindings [("b", .jnum 2), ("a", .jnum 1)] := by
  refine ⟨rfl, rfl, by decide, rfl, rfl, by with_unfolding_all rfl⟩

/-- Claim C9: registering a second computation whose derived name
(prefix + "_" + module + "_" + function name, line 60) equals that of a
live registration fails with CacheNameClashException at decoration time,
and a registry without duplicates never acquires one. -/
theorem c9_name_clash_rejected (p1 m1 n1 p2 m2 n2 : String)
    (registry registry2 : List String)
    (heq : fnameOf p1 m1 n1 = fnameOf p2 m2 n2)
    (h1 : decorate registry (fnameOf p1 m1 n1) = .ok registry2) :
    decorate registry2 (fnameOf p2 m2 n2) = .error ()
    ∧ (registry.Nodup → registry2.Nodup) := by
  unfold decorate at h1 ⊢
  by_cases hmem : fnameOf p1 m1 n1 ∈ registry
  · simp [hmem] at h1
  · simp only [hmem, if_neg, ite_false, Except.ok.injEq] at h1
    subst h1
    rw [← heq]
    exact ⟨by simp, fun hnd => List.nodup_cons.mpr ⟨hmem, hnd⟩⟩

/-- Witness for c9_name_clash_rejected at a concrete registration. -/
theorem c9_name_clash_rejected_witness :
    decorate ["p_mod_foo"] (fnameOf "p" "mod" "foo") = .error ()
    ∧ (([] : List String).Nodup → ["p_mod_foo"].Nodup) :=
  c9_name_clash_rejected "p" "mod" "foo" "p" "mod" "foo" [] ["p_mod_foo"]
    rfl rfl

/-- Claim C10: line 56 tests Python truthiness (`if not stale`), so an
explicit stale of 0 or 0.0 is replaced by 2 * expires exactly like the
unset default None, and a nonzero stale is kept.  The claim's corollary
that a caller can never end up with a zero staleness bound fails when
expires itself is 0: then 2 * expires = 0. -/
theorem c10_zero_expires_gives_zero_stale :
    resolveStale 0 (.num 0) = 0 ∧ resolveStale 0 .pynone = 0 := by
  refine ⟨?_, ?_⟩ <;> simp [resolveStale]

/-- Claim C10 (amended): every falsy stale argument — None, 0, 0.0 — is
replaced by 2 * expires, and any nonzero stale is kept verbatim; hence
the resolved stale is zero only when the caller also set expires to
zero. -/
theorem c10_falsy_stale_defaults (e q : ℚ) (hq : q ≠ 0) :
    resolveStale e .pynone = 2 * e
    ∧ resolveStale e (.num 0) = 2 * e
    ∧ resolveStale e (.num q) = q
    ∧ (e ≠ 0 → resolveStale e (.num 0) ≠ 0) := by
  refine ⟨rfl, by simp [resolveStale], by simp [resolveStale, hq], ?_⟩
  intro he
  simp [resolveStale, he]

/-- Witness for c10_falsy_stale_defaults at expires = 5, stale = 3. -/
theorem c10_falsy_stale_defaults_witness :
    resolveStale 5 .pynone = 2 * 5
    ∧ resolveStale 5 (.num 0) = 2 * 5
    ∧ resolveStale 5 (.num 3) = 3
    ∧ ((5:ℚ) ≠ 0 → resolveStale 5 (.num 0) ≠ 0) :=
  c10_falsy_stale_defaults 5 3 (by norm_num)

/-- Claim C7: the claim says a failure of cache_store.get is treated as
a cache miss.  It is not: line 77 calls cache_store.get outside the
try of lines 78-81, so an exception raised by get propagates to the
caller; here the wrapped call raises the store error and the underlying
function is never invoked. -/
theorem c7_get_error_counterexample :
    (wrappedRun ⟨5, 10, false⟩ "f" (.error ()) 0 true (.ok (.jnum 1)) 0).outcome
        = .error .storeGet
    ∧ (wrappedRun ⟨5, 10, false⟩ "f" (.error ()) 0 true (.ok (.jnum 1)) 0).fCalled
        = false :=
  ⟨rfl, rfl⟩

/-- Claim C7 (amended): only the decoding of the value returned by get
is protected — a get reply that json.loads cannot handle (a None miss
reply or unparseable bytes) is treated as a cache miss and the wrapper
proceeds to recomputation; an exception raised by the get call itself
propagates to the caller with nothing else happening. -/
theorem c7_get_reply_miss_but_get_error_raises (cfg : Config) (fname : String)
    (now tW : ℚ) (lockAcq : Bool) (fRes : Except Unit JVal) (v : JVal) :
    wrappedRun cfg fname (.error ()) now lockAcq fRes tW
      = ⟨false, false, none, none, false, .error .storeGet⟩
    ∧ wrappedRun cfg fname (.ok .garbage) now true (.ok v) tW
      = ⟨true, false, some (entryJ tW v),
         some ⟨"__lock_" ++ fname, cfg.expires, 1/10, false⟩, true, .ok v⟩ := by
  constructor
  · rfl
  · simp [wrappedRun, decodeStep, ageStep, JVal.truthy, bgCond, update_cache]

/-- Claim C8: the claim says every undecodable or foreign-format stored
byte string is treated as an absent entry and never raises.  A stored
byte string that json.loads parses to a truthy non-dict — here the
bytes "5", parsing to the number 5 — reaches line 84 where
`cached_result.get` raises AttributeError to the caller. -/
theorem c8_decodable_entry_crashes :
    wrappedRun ⟨5, 10, false⟩ "f" (.ok (.val (.jnum 5))) 100 true (.ok (.jnum 1)) 100
      = ⟨false, false, none, none, false, .error .attrError⟩ := by
  with_unfolding_all rfl

/-- Claim C8 (amended): a stored byte string that fails to decode as
JSON is treated exactly like an absent entry (the call behaves
identically on the two); but a stored byte string that decodes to a
truthy non-object value makes the invocation raise AttributeError, so
not every corrupt entry is harmless. -/
theorem c8_undecodable_is_miss (cfg : Config) (fname : String)
    (now tW : ℚ) (lockAcq : Bool) (fRes : Except Unit JVal) :
    wrappedRun cfg fname (.ok .garbage) now lockAcq fRes tW
      = wrappedRun cfg fname (.ok .noEntry) now lockAcq fRes tW
    ∧ (wrappedRun cfg fname (.ok (.val (.jstr "corrupt"))) now lockAcq fRes tW).outcome
      = .error .attrError := by
  constructor
  · rfl
  · simp [wrappedRun, decodeStep, ageStep, JVal.truthy]

/-- Claim C2: the claim says a contended caller (lock not acquired,
bg_caching on, entry present) recomputes live once age >= stale.  It
does not: with expires = 5 and stale = 10, an entry aged 100 is still
served on the contended path — lines 104-107 test only bg_caching and
entry presence, never stale, before falling through to line 109. -/
theorem c2_stale_contended_counterexample :
    wrappedRun ⟨5, 10, true⟩ "f" (.ok (.val (entryJ 0 (.jstr "old")))) 100 false
        (.ok (.jstr "new")) 100
      = ⟨false, false, none, some ⟨"__lock_f", 5, 1/10, false⟩, false,
         .ok (.jstr "old")⟩ := by
  with_unfolding_all rfl

/-- Claim C2 (amended): on the contended path (lock not acquired) with
bg_caching enabled and a decodable entry present, the stored result is
returned whatever the entry's age — the stale bound is never consulted
there; it only selects between background and synchronous refresh when
the lock is acquired. -/
theorem c2_contended_bg_serves_any_age (cfg : Config) (fname : String)
    (fs : List (String × JVal)) (ts now tW : ℚ) (r : JVal)
    (fRes : Except Unit JVal)
    (hts : jobjGet fs "timestamp" = some (.jnum ts))
    (hr : jobjGet fs "result" = some r)
    (hexp : now - ts > cfg.expires)
    (hbg : cfg.bg_caching = true) :
    wrappedRun cfg fname (.ok (.val (.jobj fs))) now false fRes tW
      = ⟨false, false, none,
         some ⟨"__lock_" ++ fname, cfg.expires, 1/10, false⟩, false, .ok r⟩ := by
  have htr := truthy_of_jobjGet hts
  simp [wrappedRun, decodeStep, ageStep, htr, hts, hexp, hbg, itemGet, hr]

/-- Witness for c2_contended_bg_serves_any_age: an entry aged 50 with
stale = 10 is served verbatim on the contended path. -/
theorem c2_contended_bg_serves_any_age_witness :
    wrappedRun ⟨5, 10, true⟩ "g" (.ok (.val (.jobj
        [("timestamp", .jnum 0), ("result", .jstr "kept")]))) 50 false
        (.ok (.jstr "fresh")) 50
      = ⟨false, false, none, some ⟨"__lock_g", 5, 1/10, false⟩, false,
         .ok (.jstr "kept")⟩ :=
  c2_contended_bg_serves_any_age ⟨5, 10, true⟩ "g"
    [("timestamp", .jnum 0), ("result", .jstr "kept")] 0 50 50 (.jstr "kept")
    (.ok (.jstr "fresh")) rfl rfl (by norm_num) rfl

/-- Claim C3: the claim says the refresh lock is per cache key (named
lock_<key>).  It is not: line 90 names the lock '__lock_' + fname, one
lock per registered computation — two calls with different arguments
derive different cache keys via mangle yet attempt the very same lock,
and the lock name is not "lock_" followed by the key. -/
theorem c3_lock_not_per_key :
    mangle "p_m_f" ⟨["x"], []⟩ [.jnum 1] [] = .ok "@p_m_f_\x7b\"x\": 1\x7d"
    ∧ mangle "p_m_f" ⟨["x"], []⟩ [.jnum 2] [] = .ok "@p_m_f_\x7b\"x\": 2\x7d"
    ∧ ("@p_m_f_\x7b\"x\": 1\x7d" : String) ≠ "@p_m_f_\x7b\"x\": 2\x7d"
    ∧ (wrappedRun ⟨5, 10, false⟩ "p_m_f" (.ok .noEntry) 0 true (.ok (.jnum 1)) 0).lockCall
        = some ⟨"__lock_p_m_f", 5, 1/10, false⟩
    ∧ (wrappedRun ⟨5, 10, false⟩ "p_m_f" (.ok .noEntry) 0 true (.ok (.jnum 2)) 0).lockCall
        = some ⟨"__lock_p_m_f", 5, 1/10, false⟩
    ∧ ("__lock_p_m_f" : String) ≠ "lock_" ++ "@p_m_f_\x7b\"x\": 1\x7d" := by
  refine ⟨rfl, rfl, by decide, ?_, ?_, by decide⟩ <;> with_unfolding_all rfl

/-- Claim C3 (amended): on every expired-or-missing invocation the lock
attempted is cache_store.lock('__lock_' + fname, timeout = expires,
blocking_timeout = 0.1, thread_local = False) — one lock per registered
computation, shared by all argument bindings, with TTL equal to expires
and a short non-blocking polling wait. -/
theorem c3_lock_named_by_fname (cfg : Config) (fname : String)
    (cell : CellContent) (now tW age : ℚ) (lockAcq : Bool)
    (fRes : Except Unit JVal)
    (hage : ageStep (decodeStep cell) now = .ok age)
    (hexp : (decodeStep cell).truthy = false ∨ age > cfg.expires) :
    (wrappedRun cfg fname (.ok cell) now lockAcq fRes tW).lockCall
      = some ⟨"__lock_" ++ fname, cfg.expires, 1/10, false⟩ := by
  unfold wrappedRun
  simp only [hage]
  rw [if_pos hexp]
  cases lockAcq <;> split <;> first
  | rfl
  | (split <;> rfl)

/-- Witness for c3_lock_named_by_fname on a cache miss. -/
theorem c3_lock_named_by_fname_witness :
    (wrappedRun ⟨7, 14, false⟩ "w" (.ok .noEntry) 0 true (.ok (.jnum 3)) 0).lockCall
      = some ⟨"__lock_" ++ "w", 7, 1/10, false⟩ :=
  c3_lock_named_by_fname ⟨7, 14, false⟩ "w" .noEntry 0 0 0 true (.ok (.jnum 3))
    rfl (Or.inl rfl)

/-- Claim C4: when a decodable entry is present and its age is at most
expires, the call returns entry.result with no function call, no lock
attempt and no store write; consequently any sequence of calls within
the freshness window leaves the store untouched, never invokes the
underlying function, and returns the cached result every time. -/
theorem c4_fresh_serves_cached (cfg : Config) (fname key : String)
    (fs : List (String × JVal)) (ts : ℚ) (r : JVal)
    (hts : jobjGet fs "timestamp" = some (.jnum ts))
    (hr : jobjGet fs "result" = some r) :
    (∀ (now tW : ℚ) (lockAcq : Bool) (fRes : Except Unit JVal),
      ¬ now - ts > cfg.expires →
      wrappedRun cfg fname (.ok (.val (.jobj fs))) now lockAcq fRes tW
        = ⟨false, false, none, none, false, .ok r⟩)
    ∧ ∀ (store : String → CellContent) (calls : List CallIn),
        store key = .val (.jobj fs) →
        (∀ c ∈ calls, ¬ c.now - ts > cfg.expires) →
        (runCalls cfg fname key store calls).2 = store
        ∧ ∀ tr ∈ (runCalls cfg fname key store calls).1,
            tr = ⟨false, false, none, none, false, .ok r⟩ := by
  have htr := truthy_of_jobjGet hts
  have single : ∀ (now tW : ℚ) (lockAcq : Bool) (fRes : Except Unit JVal),
      ¬ now - ts > cfg.expires →
      wrappedRun cfg fname (.ok (.val (.jobj fs))) now lockAcq fRes tW
        = ⟨false, false, none, none, false, .ok r⟩ := by
    intro now tW lockAcq fRes hfr
    simp [wrappedRun, decodeStep, ageStep, htr, hts, hfr, itemGet, hr]
  refine ⟨single, ?_⟩
  intro store calls
  induction calls generalizing store with
  | nil => intro hst _; exact ⟨rfl, by simp [runCalls]⟩
  | cons c rest ih =>
    intro hst hin
    have hc := single c.now c.tW c.lockAcq c.fRes (hin c (by simp))
    have hrest := ih store hst (fun d hd => hin d (by simp [hd]))
    constructor
    · simp only [runCalls, hst, hc]
      exact hrest.1
    · simp only [runCalls, hst, hc]
      intro tr htr2
      rcases List.mem_cons.mp htr2 with h | h
      · exact h
      · exact hrest.2 tr h

/-- Witness for c4_fresh_serves_cached: a single fresh read at age 3
with expires 5, and a two-call sequence at ages 1 and 4, all serving the
cached value with no recomputation and no write. -/
theorem c4_fresh_serves_cached_witness :
    wrappedRun ⟨5, 10, false⟩ "f" (.ok (.val (entryJ 0 (.jstr "v")))) 3 true
        (.ok (.jstr "w")) 3
      = ⟨false, false, none, none, false, .ok (.jstr "v")⟩
    ∧ (runCalls ⟨5, 10, false⟩ "f" "k"
          (fun _ => .val (entryJ 0 (.jstr "v")))
          [⟨1, true, .ok (.jstr "w"), 1⟩, ⟨4, false, .ok (.jstr "u"), 4⟩]).2
      = (fun _ => .val (entryJ 0 (.jstr "v")))
    ∧ ∀ tr ∈ (runCalls ⟨5, 10, false⟩ "f" "k"
          (fun _ => .val (entryJ 0 (.jstr "v")))
          [⟨1, true, .ok (.jstr "w"), 1⟩, ⟨4, false, .ok (.jstr "u"), 4⟩]).1,
        tr = ⟨false, false, none, none, false, .ok (.jstr "v")⟩ := by
  have h := c4_fresh_serves_cached ⟨5, 10, false⟩ "f" "k"
    [("timestamp", .jnum 0), ("result", .jstr "v")] 0 (.jstr "v") rfl rfl
  have h2 := h.2 (fun _ => .val (entryJ 0 (.jstr "v")))
    [⟨1, true, .ok (.jstr "w"), 1⟩, ⟨4, false, .ok (.jstr "u"), 4⟩] rfl
    (by
      intro c hc
      rcases List.mem_cons.mp hc with h1 | h1
      · subst h1; norm_num
      · rcases List.mem_cons.mp h1 with h2 | h2
        · subst h2; norm_num
        · simp at h2)
  exact ⟨h.1 3 3 true (.ok (.jstr "w")) (by norm_num), h2.1, h2.2⟩

/-- Claim C5: on the synchronous refresh path (expired or missing entry,
lock acquired, background condition false) the underlying function runs
in the calling thread; on success the entry
json.dumps(timestamp, result) is persisted, the lock is released and the
fresh result returned; on an exception of f, the finally on line 72
still releases the lock, nothing is written, and the exception
propagates. -/
theorem c5_sync_refresh_releases_lock (cfg : Config) (fname : String)
    (cell : CellContent) (now tW age : ℚ) (fRes : Except Unit JVal)
    (hage : ageStep (decodeStep cell) now = .ok age)
    (hexp : (decodeStep cell).truthy = false ∨ age > cfg.expires)
    (hbg : bgCond cfg (decodeStep cell) now = .ok false) :
    (∀ v, fRes = .ok v →
      wrappedRun cfg fname (.ok cell) now true fRes tW
        = ⟨true, false, some (entryJ tW v),
           some ⟨"__lock_" ++ fname, cfg.expires, 1/10, false⟩, true, .ok v⟩)
    ∧ (fRes = .error () →
      wrappedRun cfg fname (.ok cell) now true fRes tW
        = ⟨true, false, none,
           some ⟨"__lock_" ++ fname, cfg.expires, 1/10, false⟩, true,
           .error .fromF⟩) := by
  constructor
  · intro v hv
    subst hv
    unfold wrappedRun
    simp only [hage]
    rw [if_pos hexp]
    simp [hbg, update_cache]
  · intro hv
    subst hv
    unfold wrappedRun
    simp only [hage]
    rw [if_pos hexp]
    simp [hbg, update_cache]

/-- Witness for c5_sync_refresh_releases_lock on a cache miss with
f returning the number 7 at write time 3. -/
theorem c5_sync_refresh_releases_lock_witness :
    wrappedRun ⟨5, 10, false⟩ "f" (.ok .noEntry) 0 true (.ok (.jnum 7)) 3
      = ⟨true, false, some (entryJ 3 (.jnum 7)),
         some ⟨"__lock_" ++ "f", 5, 1/10, false⟩, true, .ok (.jnum 7)⟩ :=
  (c5_sync_refresh_releases_lock ⟨5, 10, false⟩ "f" .noEntry 0 3 0
    (.ok (.jnum 7)) rfl (Or.inl rfl) rfl).1 (.jnum 7) rfl

/-- Claim C6: on an expired-or-missing invocation where the lock is not
acquired and bg_caching is off or no entry exists, lines 106-107 call
the underlying function directly: its outcome is returned unchanged
(liftF), nothing is written to the store, no background thread is
spawned, the lock is not released by this caller, and only the single
lock attempt of line 90 is made. -/
theorem c6_bypass_no_write (cfg : Config) (fname : String)
    (cell : CellContent) (now tW age : ℚ) (fRes : Except Unit JVal)
    (hage : ageStep (decodeStep cell) now = .ok age)
    (hexp : (decodeStep cell).truthy = false ∨ age > cfg.expires)
    (hnb : cfg.bg_caching = false ∨ (decodeStep cell).truthy = false) :
    wrappedRun cfg fname (.ok cell) now false fRes tW
      = ⟨true, false, none,
         some ⟨"__lock_" ++ fname, cfg.expires, 1/10, false⟩, false,
         liftF fRes⟩ := by
  unfold wrappedRun
  simp only [hage]
  rw [if_pos hexp]
  simp only [Bool.false_eq_true, if_false]
  rw [if_pos hnb]

/-- Witness for c6_bypass_no_write: contended miss with bg_caching off;
f runs live and its value is returned, the store untouched. -/
theorem c6_bypass_no_write_witness :
    wrappedRun ⟨5, 10, false⟩ "f" (.ok .noEntry) 9 false (.ok (.jstr "live")) 9
      = ⟨true, false, none, some ⟨"__lock_" ++ "f", 5, 1/10, false⟩, false,
         liftF (.ok (.jstr "live"))⟩ :=
  c6_bypass_no_write ⟨5, 10, false⟩ "f" .noEntry 9 9 9 (.ok (.jstr "live"))
    rfl (Or.inl rfl) (Or.inl rfl)
